import Mathlib

/-!
Verification of the kniha-jazd fuel-consumption reconciliation scripts.

The definitions below are shallow embeddings of the Python sources:
  * `scripts/compare_import.py` — `get_calculated_values` (period segmentation,
    consumption-rate assignment, tank-level simulation) and `compare_year`
    (the reconciliation comparator);
  * `scripts/import_excel.py` — the replace-import pipeline (`main`);
  * `scripts/create_showcase_db.py` — the showcase database builder's
    `sort_order` assignment.
Floats are modelled as rationals (`ℚ`); `None`-able floats as `Option ℚ`.
-/

namespace KnihaJazd

/-- A trip row as consumed by `get_calculated_values`
(`SELECT id, date, distance_km, fuel_liters, full_tank, odometer`): only the
fields the algorithm reads.  Trips are assumed given in chronological order
(`ORDER BY date ASC, odometer ASC`); a trip's position in the list stands for
its `id` key. -/
structure Trip where
  distance_km : ℚ
  fuel_liters : Option ℚ
  full_tank : Bool
deriving DecidableEq

/-- Loop state of the first loop of `get_calculated_values`
(compare_import.py lines 121-139): `buf` is `current_trip_ids` (kept with the
trips themselves so period aggregates can be stated), `km` is `km_in_period`,
`fuel` is `fuel_in_period`, and `closed` records the flushed periods, each
with the rate assigned to its trips. -/
structure SegState where
  closed : List (List (ℕ × Trip) × ℚ)
  buf : List (ℕ × Trip)
  km : ℚ
  fuel : ℚ
deriving DecidableEq

def initSeg : SegState := ⟨[], [], 0, 0⟩

/-- One iteration of the rate loop (compare_import.py lines 126-139).
`if fuel_liters and fuel_liters > 0` is `fuel_liters = some f` with `0 < f`
(`None` and `0.0` are falsy, a negative value fails `> 0`);
`if full_tank and km_in_period > 0` guards the flush. -/
def segStep (st : SegState) (it : ℕ × Trip) : SegState :=
  let buf := st.buf ++ [it]
  let km := st.km + it.2.distance_km
  match it.2.fuel_liters with
  | some f =>
    if 0 < f then
      let fuel := st.fuel + f
      if it.2.full_tank = true ∧ 0 < km then
        ⟨st.closed ++ [(buf, fuel / km * 100)], [], 0, 0⟩
      else
        ⟨st.closed, buf, km, fuel⟩
    else
      ⟨st.closed, buf, km, st.fuel⟩
  | none =>
    ⟨st.closed, buf, km, st.fuel⟩

/-- The rate loop over the whole trip list, numbering trips from `i`. -/
def segRec (i : ℕ) (st : SegState) : List Trip → SegState
  | [] => st
  | t :: rest => segRec (i + 1) (segStep st (i, t)) rest

/-- Full scan of the chronologically ordered trips (loop of lines 126-139). -/
def runSeg (trips : List Trip) : SegState := segRec 0 initSeg trips

/-- The `rates` dictionary built by lines 126-143: each flushed period's trips
map to the period rate, the trips left in the buffer ("Remaining trips use TP
rate", lines 141-143) map to `tp_consumption`. -/
def rateAssoc (tp : ℚ) (trips : List Trip) : List (ℕ × ℚ) :=
  (runSeg trips).closed.flatMap (fun p => p.1.map (fun q => (q.1, p.2)))
    ++ (runSeg trips).buf.map (fun q => (q.1, tp))

/-- `rates.get(trip_id)` with trips keyed by position. -/
def rateOf (tp : ℚ) (trips : List Trip) (i : ℕ) : Option ℚ :=
  (rateAssoc tp trips).lookup i

/-- Sum of `distance_km` over a buffered period. -/
def distSum (l : List (ℕ × Trip)) : ℚ := (l.map (fun p => p.2.distance_km)).sum

/-- The fuel a trip contributes to `fuel_in_period`: its `fuel_liters` when
present and positive, otherwise nothing. -/
def posFuel (t : Trip) : ℚ :=
  match t.fuel_liters with
  | some f => if 0 < f then f else 0
  | none => 0

/-- Sum of the positive `fuel_liters` contributions over a buffered period. -/
def posFuelSum (l : List (ℕ × Trip)) : ℚ := (l.map (fun p => posFuel p.2)).sum

/-- One record of the second loop of `get_calculated_values`
(compare_import.py lines 150-163): `spotreba` is the fuel consumed on the
trip, `afterRefuel` is the value of `zostatok` right after the refuel branch
(lines 156-160) and before the clamp, `zostatok` is the recorded (clamped)
remaining fuel. -/
structure SimEntry where
  spotreba : ℚ
  afterRefuel : ℚ
  zostatok : ℚ
deriving DecidableEq

/-- Body of the simulation loop (lines 151-163) for one trip, given the rate
already looked up: subtract `spotreba`, apply the refuel branch, clamp. -/
def simStep (tank rate level : ℚ) (t : Trip) : SimEntry :=
  let spotreba := t.distance_km * rate / 100
  let z1 := level - spotreba
  let z2 :=
    match t.fuel_liters with
    | some f =>
      if 0 < f then
        if t.full_tank = true then tank else min (z1 + f) tank
      else z1
    | none => z1
  ⟨spotreba, z2, max 0 (min z2 tank)⟩

/-- The simulation loop (lines 150-163), trips numbered from `i`, threading
the recorded `zostatok` as the next trip's starting level.  The rate is
`rates.get(trip_id, tp_consumption)` (line 151). -/
def simGo (tank tp : ℚ) (r : ℕ → Option ℚ) : ℕ → ℚ → List Trip → List SimEntry
  | _, _, [] => []
  | i, level, t :: rest =>
    let e := simStep tank ((r i).getD tp) level t
    e :: simGo tank tp r (i + 1) e.zostatok rest

/-- `get_calculated_values` (lines 99-165): compute the rates map from the
trips, then simulate the tank starting from a full tank
(`zostatok = tank_size`, line 148), yielding per-trip derived values. -/
def get_calculated_values (tp tank : ℚ) (trips : List Trip) : List SimEntry :=
  simGo tank tp (rateOf tp trips) 0 tank trips

/-! ### Reconciliation comparator (`compare_year`, compare_import.py 168-258) -/

/-- A dynamically typed cell value, as the comparator sees it: strings,
floats, or `None`. -/
inductive Val where
  | str (s : String)
  | num (q : ℚ)
  | null
deriving DecidableEq

/-- An Excel-side row as produced by `get_excel_data` (lines 46-58). -/
structure ExcelRow where
  date : String
  origin : String
  destination : String
  odometer : ℚ
  purpose : String
  fuel_liters : Option ℚ
  fuel_cost_eur : Option ℚ
  excel_spotreba : Option ℚ
  excel_zostatok : Option ℚ
  distance_km : ℚ
  excel_rate : Option ℚ
deriving DecidableEq

/-- A database-side row as produced by `get_db_data` (lines 82-93). -/
structure DbRow where
  date : String
  origin : String
  destination : String
  odometer : ℚ
  purpose : String
  fuel_liters : Option ℚ
  fuel_cost_eur : Option ℚ
  distance_km : ℚ
  id : ℕ
deriving DecidableEq

/-- The `calc_data` maps (`rates`, `spotreba`, `zostatok`), each a dictionary
from trip id, read with `.get` (lines 221, 234, 247). -/
structure CalcData where
  rates : ℕ → Option ℚ
  spotreba : ℕ → Option ℚ
  zostatok : ℕ → Option ℚ

/-- An entry of `result['fixed_mismatches']` (lines 202-214). -/
structure FixedMismatch where
  row : ℕ
  field : String
  excel : Val
  db : Val
deriving DecidableEq

/-- An entry of `result['calc_mismatches']` (lines 224-256). -/
structure CalcMismatch where
  row : ℕ
  field : String
  excel : ℚ
  calculated : ℚ
  diff : ℚ
deriving DecidableEq

def optVal : Option ℚ → Val
  | some q => Val.num q
  | none => Val.null

/-- The `fixed_fields` (line 190), in source order, paired with the values
`excel.get(field)` and `db.get(field)`. -/
def fixedPairs (e : ExcelRow) (d : DbRow) : List (String × Val × Val) :=
  [("date", Val.str e.date, Val.str d.date),
   ("origin", Val.str e.origin, Val.str d.origin),
   ("destination", Val.str e.destination, Val.str d.destination),
   ("distance_km", Val.num e.distance_km, Val.num d.distance_km),
   ("odometer", Val.num e.odometer, Val.num d.odometer),
   ("purpose", Val.str e.purpose, Val.str d.purpose),
   ("fuel_liters", optVal e.fuel_liters, optVal d.fuel_liters),
   ("fuel_cost_eur", optVal e.fuel_cost_eur, optVal d.fuel_cost_eur)]

/-- The fixed-field comparison of lines 195-214: both `None` means equal;
two floats compare with tolerance `0.01`; anything else must be exactly
equal, and any inequality yields a mismatch record. -/
def fixedMismatch? (rownum : ℕ) (field : String) (ev dv : Val) :
    Option FixedMismatch :=
  match ev, dv with
  | Val.null, Val.null => none
  | Val.num a, Val.num b =>
    if |a - b| > 0.01 then some ⟨rownum, field, Val.num a, Val.num b⟩ else none
  | _, _ => if ev = dv then none else some ⟨rownum, field, ev, dv⟩

/-- All fixed-field mismatches of one row (the inner loop at lines 191-214). -/
def rowFixed (rownum : ℕ) (e : ExcelRow) (d : DbRow) : List FixedMismatch :=
  (fixedPairs e d).filterMap fun q => fixedMismatch? rownum q.1 q.2.1 q.2.2

/-- One derived-field comparison (lines 220-256): only when both sides are
present, with the given tolerance; a mismatch records both values and the
absolute difference. -/
def calcCheck (rownum : ℕ) (field : String) (tol : ℚ) :
    Option ℚ → Option ℚ → List CalcMismatch
  | some a, some b =>
    if |a - b| > tol then [⟨rownum, field, a, b, |a - b|⟩] else []
  | _, _ => []

/-- The three derived-field comparisons of one row, in source order with the
source tolerances: `consumption_rate` 0.05, `spotreba` 0.1, `zostatok` 0.5. -/
def rowCalc (rownum : ℕ) (e : ExcelRow) (tripId : ℕ) (c : CalcData) :
    List CalcMismatch :=
  calcCheck rownum "consumption_rate" 0.05 e.excel_rate (c.rates tripId)
    ++ calcCheck rownum "spotreba" 0.1 e.excel_spotreba (c.spotreba tripId)
    ++ calcCheck rownum "zostatok" 0.5 e.excel_zostatok (c.zostatok tripId)

/-- The per-row loop of `compare_year` (lines 186-256), `row_num = i + 1`
starting at 1, accumulating the two mismatch lists in row order. -/
def compareRows (c : CalcData) :
    ℕ → List ExcelRow → List DbRow → List FixedMismatch × List CalcMismatch
  | rownum, e :: es, d :: ds =>
    let rest := compareRows c (rownum + 1) es ds
    (rowFixed rownum e d ++ rest.1, rowCalc rownum e d.id c ++ rest.2)
  | _, _, _ => ([], [])

/-- The comparison report (`result`, lines 174-180 plus the
`count_mismatch` key of line 183). -/
structure CompareResult where
  year : String
  excel_count : ℕ
  db_count : ℕ
  count_mismatch : Bool
  fixed_mismatches : List FixedMismatch
  calc_mismatches : List CalcMismatch
deriving DecidableEq

/-- `compare_year` (lines 168-258) on already-loaded data: a length mismatch
sets `count_mismatch` and returns with both mismatch lists still empty
(lines 182-184); otherwise the rows are compared pairwise by position. -/
def compare_year (year : String) (excel : List ExcelRow) (db : List DbRow)
    (c : CalcData) : CompareResult :=
  if excel.length ≠ db.length then
    ⟨year, excel.length, db.length, true, [], []⟩
  else
    let ms := compareRows c 1 excel db
    ⟨year, excel.length, db.length, false, ms.1, ms.2⟩

/-! ### Replace-import pipeline (`main`, import_excel.py 54-165) and the
showcase builder's ordering (`create_db`, create_showcase_db.py 159-174) -/

/-- Python's `str.lower()` (character-wise lower-casing). -/
def pyLower (s : String) : String := String.mk (s.data.map Char.toLower)

/-- `zfill(2)`: left-pad with zeros to width 2. -/
def zfill2 (s : String) : String :=
  if s.length ≥ 2 then s else if s.length = 1 then "0" ++ s else "00"

/-- `parse_date` (import_excel.py 32-41) on a string cell: a `DD.MM.YYYY`
string becomes `YYYY-MM-DD`; anything else is returned as is. -/
def parse_date (s : String) : String :=
  match s.splitOn "." with
  | [d, m, y] => y ++ "-" ++ zfill2 m ++ "-" ++ zfill2 d
  | _ => s

/-- A source spreadsheet row as the import reads it: the date cell
(`None` models `NaN`), `row[6]` (fuel litres) and `row[10]` (distance) after
`parse_float` (`None` for NaN/unparsable). -/
structure DfRow where
  date : Option String
  fuel6 : Option ℚ
  dist10 : Option ℚ
deriving DecidableEq

/-- A row is skipped when its date cell is NaN or reads `"total"`
(import_excel.py 121-123). -/
def usableRow (r : DfRow) : Bool :=
  match r.date with
  | some s => !(pyLower s == "total")
  | none => false

/-- First pass of the import (lines 90-99): scan the data rows for the first
usable date and take `date[:4]` of its parsed form as the import year. -/
def firstUsableYear : List DfRow → Option String
  | [] => none
  | r :: rest =>
    match r.date with
    | some s =>
      if pyLower s = "total" then firstUsableYear rest
      else some ((parse_date s).take 4)
    | none => firstUsableYear rest

/-- A persisted trip, with the columns the import claims concern. -/
structure StoredTrip where
  id : ℕ
  vehicle_id : ℕ
  date : String
  distance_km : ℚ
  fuel_liters : Option ℚ
  sort_order : ℤ
  full_tank : Bool
deriving DecidableEq

/-- The import loop (lines 117-160): skip blank/`total` rows, otherwise
insert a trip with `sort_order = len(df) - 3 - imported - 1` (line 142) and
`full_tank = 1` (line 145); `n` is `len(df)`, `imported` counts inserted
rows, fresh ids come from `idBase`.  `distance_km` is
`parse_float(row[10]) or 0.0`. -/
def importLoop (v n idBase : ℕ) : ℕ → List DfRow → List StoredTrip
  | _, [] => []
  | imported, r :: rest =>
    match r.date with
    | none => importLoop v n idBase imported rest
    | some s =>
      if pyLower s = "total" then importLoop v n idBase imported rest
      else
        { id := idBase + imported, vehicle_id := v, date := parse_date s,
          distance_km := r.dist10.getD 0, fuel_liters := r.fuel6,
          sort_order := (n : ℤ) - 3 - imported - 1, full_tank := true }
          :: importLoop v n idBase (imported + 1) rest

/-- `main` of import_excel.py at the store level.  `vehicles` is the result
of `SELECT id FROM vehicles LIMIT 1`; `df` is the whole sheet (data rows are
`df.drop 3`, line 117); `store` is the persisted trip set.  Aborts
(`sys.exit`) return the untouched store together with the error message;
otherwise the year-scoped delete (lines 106-109) runs and the parsed rows
are inserted. -/
def importReplace (vehicles : List ℕ) (idBase : ℕ) (df : List DfRow)
    (store : List StoredTrip) : Option String × List StoredTrip :=
  match vehicles with
  | [] => (some "No vehicle found in database", store)
  | v :: _ =>
    match firstUsableYear (df.drop 3) with
    | none => (some "No valid dates found in Excel data", store)
    | some importYear =>
      let kept := store.filter
        fun t => ¬(t.vehicle_id = v ∧ t.date.take 4 = importYear)
      (none, kept ++ importLoop v df.length idBase 0 (df.drop 3))

/-- The showcase builder's trip loop (create_showcase_db.py 159-174):
`sort_order` starts at 0 and is incremented after every inserted trip, the
rows arriving oldest-first. -/
def showcaseGo {α : Type} (so : ℤ) : List α → List ℤ
  | [] => []
  | _ :: rest => so :: showcaseGo (so + 1) rest

/-- The `sort_order` keys assigned by `create_db` to its trip rows, in
insertion (oldest-first) order. -/
def showcaseSortOrders {α : Type} (l : List α) : List ℤ := showcaseGo 0 l

/-! ### Observation helpers and spec-side definitions -/

/-- The trip-index keys held by a segmentation state, flushed periods first,
then the live buffer. -/
def keys (st : SegState) : List ℕ :=
  st.closed.flatMap (fun p => p.1.map Prod.fst) ++ st.buf.map Prod.fst

/-- View an imported trip through the fields the rate/simulation algorithm
reads. -/
def toTrip (t : StoredTrip) : Trip := ⟨t.distance_km, t.fuel_liters, t.full_tank⟩

/-- Written from the spec's fixed-field comparison rule (spec §4.4): equal if
both absent; for numeric pairs equal iff the absolute difference is at most
0.01; otherwise exact equality is required. -/
def specFixedEqB : Val → Val → Bool
  | Val.null, Val.null => true
  | Val.num a, Val.num b => decide (|a - b| ≤ 0.01)
  | a, b => decide (a = b)

/-- Written from the spec (§4.4): a row's fixed-field mismatches are exactly
the fields failing `specFixedEqB`, each recorded with the 1-based row number,
the field name and both values. -/
def specRowFixed (rownum : ℕ) (e : ExcelRow) (d : DbRow) : List FixedMismatch :=
  (fixedPairs e d).filterMap fun q =>
    if specFixedEqB q.2.1 q.2.2 then none else some ⟨rownum, q.1, q.2.1, q.2.2⟩

/-- Written from the spec (§4.4): the fixed-field mismatches of a pair of
equal-length sequences, positions compared pairwise, row numbers counting
from `rownum`. -/
def specFixedMismatches : ℕ → List ExcelRow → List DbRow → List FixedMismatch
  | rownum, e :: es, d :: ds =>
    specRowFixed rownum e d ++ specFixedMismatches (rownum + 1) es ds
  | _, _, _ => []

/-- Written from the spec (§4.4): one derived-field comparison — skipped
silently when either side is absent, a mismatch exactly when the absolute
difference exceeds the tolerance, recording both values and the absolute
difference. -/
def specCalcCheck (rownum : ℕ) (field : String) (tol : ℚ) :
    Option ℚ → Option ℚ → List CalcMismatch
  | some a, some b =>
    if tol < |a - b| then [⟨rownum, field, a, b, |a - b|⟩] else []
  | _, _ => []

/-- Written from the spec (§4.4): all derived-field mismatches of a pair of
equal-length sequences — per position, `consumptionRate` with tolerance 0.05,
`fuelConsumed` ("spotreba") with 0.1, `fuelRemaining` ("zostatok") with 0.5,
fully enumerated in order. -/
def specCalcMismatches (c : CalcData) :
    ℕ → List ExcelRow → List DbRow → List CalcMismatch
  | rownum, e :: es, d :: ds =>
    specCalcCheck rownum "consumption_rate" 0.05 e.excel_rate (c.rates d.id)
      ++ specCalcCheck rownum "spotreba" 0.1 e.excel_spotreba (c.spotreba d.id)
      ++ specCalcCheck rownum "zostatok" 0.5 e.excel_zostatok (c.zostatok d.id)
      ++ specCalcMismatches c (rownum + 1) es ds
  | _, _, _ => []

/-- A sample reference row, used to instantiate universally quantified
comparator theorems. -/
def sampleExcelRow : ExcelRow :=
  ⟨"2024-01-03", "Bratislava", "Trnava", 45055, "stretnutie s klientom",
    none, none, none, none, 55, none⟩

/-- A sample computed row matching `sampleExcelRow`. -/
def sampleDbRow : DbRow :=
  ⟨"2024-01-03", "Bratislava", "Trnava", 45055, "stretnutie s klientom",
    none, none, 55, 0⟩

/-- Derived-value maps with no entries. -/
def emptyCalc : CalcData := ⟨fun _ => none, fun _ => none, fun _ => none⟩

/-! ## Helper lemmas -/

lemma segStep_close (st : SegState) (i : ℕ) (t : Trip) (f : ℚ)
    (hf : t.fuel_liters = some f) (hpos : 0 < f) (hft : t.full_tank = true)
    (hkm : 0 < st.km + t.distance_km) :
    segStep st (i, t) =
      ⟨st.closed ++ [(st.buf ++ [(i, t)],
          (st.fuel + f) / (st.km + t.distance_km) * 100)], [], 0, 0⟩ := by
  simp [segStep, hf, hpos, hft, hkm]

lemma segStep_noclose (st : SegState) (i : ℕ) (t : Trip)
    (h : ¬((∃ f, t.fuel_liters = some f ∧ 0 < f) ∧ t.full_tank = true ∧
        0 < st.km + t.distance_km)) :
    (segStep st (i, t)).closed = st.closed ∧
      (segStep st (i, t)).buf = st.buf ++ [(i, t)] := by
  cases hf : t.fuel_liters with
  | none => simp [segStep, hf]
  | some f =>
    by_cases hpos : 0 < f
    · have hcond : ¬(t.full_tank = true ∧ 0 < st.km + t.distance_km) :=
        fun hc => h ⟨⟨f, hf, hpos⟩, hc⟩
      simp [segStep, hf, hpos, hcond]
    · simp [segStep, hf, hpos]

lemma segStep_keys (st : SegState) (i : ℕ) (t : Trip) :
    keys (segStep st (i, t)) = keys st ++ [i] := by
  cases hf : t.fuel_liters with
  | none => simp [keys, segStep, hf]
  | some f =>
    by_cases hpos : 0 < f
    · by_cases hc : t.full_tank = true ∧ 0 < st.km + t.distance_km
      · simp [keys, segStep, hf, hpos, hc, List.flatMap_append]
      · simp [keys, segStep, hf, hpos, hc]
    · simp [keys, segStep, hf, hpos]

lemma segRec_keys (trips : List Trip) :
    ∀ (i : ℕ) (st : SegState),
      keys (segRec i st trips) = keys st ++ List.range' i trips.length := by
  induction trips with
  | nil => intro i st; simp [segRec]
  | cons t rest ih =>
    intro i st
    rw [segRec, ih (i + 1) (segStep st (i, t)), segStep_keys]
    simp [List.range'_succ]

lemma segStep_inv (st : SegState) (i : ℕ) (t : Trip)
    (hkm : st.km = distSum st.buf) (hfuel : st.fuel = posFuelSum st.buf)
    (hcl : ∀ p ∈ st.closed, p.2 = posFuelSum p.1 / distSum p.1 * 100) :
    ((segStep st (i, t)).km = distSum (segStep st (i, t)).buf)
    ∧ ((segStep st (i, t)).fuel = posFuelSum (segStep st (i, t)).buf)
    ∧ (∀ p ∈ (segStep st (i, t)).closed,
        p.2 = posFuelSum p.1 / distSum p.1 * 100) := by
  have hbufkm : distSum (st.buf ++ [(i, t)]) = st.km + t.distance_km := by
    simp [distSum, hkm]
  have hbuffuel : posFuelSum (st.buf ++ [(i, t)]) = st.fuel + posFuel t := by
    simp [posFuelSum, hfuel]
  cases hf : t.fuel_liters with
  | none =>
    have hpf : posFuel t = 0 := by simp [posFuel, hf]
    refine ⟨by simp [segStep, hf, hbufkm], ?_, by simpa [segStep, hf] using hcl⟩
    simp [segStep, hf, hbuffuel, hpf]
  | some f =>
    by_cases hpos : 0 < f
    · have hpf : posFuel t = f := by simp [posFuel, hf, hpos]
      by_cases hc : t.full_tank = true ∧ 0 < st.km + t.distance_km
      · refine ⟨by simp [segStep, hf, hpos, hc, distSum],
          by simp [segStep, hf, hpos, hc, posFuelSum], ?_⟩
        intro p hp
        have hp' : p ∈ st.closed ++ [(st.buf ++ [(i, t)],
            (st.fuel + f) / (st.km + t.distance_km) * 100)] := by
          simpa [segStep, hf, hpos, hc] using hp
        rcases List.mem_append.mp hp' with hmem | hmem
        · exact hcl p hmem
        · rcases List.mem_singleton.mp hmem with rfl
          simp [hbufkm, hbuffuel, hpf]
      · refine ⟨by simp [segStep, hf, hpos, hc, hbufkm], ?_,
          by simpa [segStep, hf, hpos, hc] using hcl⟩
        simp [segStep, hf, hpos, hc, hbuffuel, hpf]
    · have hpf : posFuel t = 0 := by simp [posFuel, hf, hpos]
      refine ⟨by simp [segStep, hf, hpos, hbufkm], ?_,
        by simpa [segStep, hf, hpos] using hcl⟩
      simp [segStep, hf, hpos, hbuffuel, hpf]

lemma segRec_inv (trips : List Trip) :
    ∀ (i : ℕ) (st : SegState),
      st.km = distSum st.buf → st.fuel = posFuelSum st.buf →
      (∀ p ∈ st.closed, p.2 = posFuelSum p.1 / distSum p.1 * 100) →
      ∀ p ∈ (segRec i st trips).closed,
        p.2 = posFuelSum p.1 / distSum p.1 * 100 := by
  induction trips with
  | nil => intro i st _ _ hcl; simpa [segRec] using hcl
  | cons t rest ih =>
    intro i st hkm hfuel hcl
    have h := segStep_inv st i t hkm hfuel hcl
    rw [segRec]
    exact ih (i + 1) (segStep st (i, t)) h.1 h.2.1 h.2.2

lemma lookup_of_mem_nodup {l : List (ℕ × ℚ)} (hnd : (l.map Prod.fst).Nodup)
    {i : ℕ} {r : ℚ} (hm : (i, r) ∈ l) : l.lookup i = some r := by
  induction l with
  | nil => simp at hm
  | cons p l ih =>
    rcases List.mem_cons.mp hm with heq | hm'
    · rw [← heq, List.lookup_cons]
      simp
    · have hnotin : p.1 ∉ l.map Prod.fst := (List.nodup_cons.mp hnd).1
      have hne : (i == p.1) = false := by
        refine beq_eq_false_iff_ne.mpr fun h => hnotin ?_
        exact h ▸ List.mem_map.mpr ⟨(i, r), hm', rfl⟩
      rw [List.lookup_cons, hne]
      exact ih (List.nodup_cons.mp hnd).2 hm'

lemma rateAssoc_keys (tp : ℚ) (trips : List Trip) :
    (rateAssoc tp trips).map Prod.fst = keys (runSeg trips) := by
  simp [rateAssoc, keys, List.map_flatMap, Function.comp_def]

lemma runSeg_keys (trips : List Trip) :
    keys (runSeg trips) = List.range trips.length := by
  have h := segRec_keys trips 0 initSeg
  simpa [runSeg, keys, initSeg, List.range_eq_range'] using h

/-! ## Claim C1 -/

/-- Claim C1 counterexample: a trip with `isFullTank = true` and
`fuelAdded = 5 > 0` whose period has accumulated distance 0 does **not**
close its period: the scan of the single-trip sequence flushes nothing and
leaves the trip buffered (the `km_in_period > 0` guard of
compare_import.py line 133 blocks the close). -/
theorem C1_counterexample :
    (Trip.mk 0 (some 5) true).full_tank = true ∧ (0 : ℚ) < 5 ∧
      (runSeg [Trip.mk 0 (some 5) true]).closed = [] ∧
      (runSeg [Trip.mk 0 (some 5) true]).buf.map Prod.fst = [0] := by
  refine ⟨rfl, by norm_num, ?_, ?_⟩
  · norm_num [runSeg, segRec, segStep, initSeg]
  · norm_num [runSeg, segRec, segStep, initSeg]

/-- Claim C1 (amended): the segmenter closes the current period exactly at a
scanned trip having `isFullTank = true`, `fuelAdded > 0` **and** a strictly
positive accumulated period distance including this trip; at such a trip all
buffered trips (this one included) form the closed period and the buffer
restarts empty, and any other trip — in particular one whose `fuelAdded` is
absent or `≤ 0`, even if flagged `isFullTank` — is only appended to the
buffer. -/
theorem C1_segmenter_close (st : SegState) (i : ℕ) (t : Trip) :
    ((∃ f, t.fuel_liters = some f ∧ 0 < f) ∧ t.full_tank = true ∧
        0 < st.km + t.distance_km →
      (segStep st (i, t)).closed.map Prod.fst
          = st.closed.map Prod.fst ++ [st.buf ++ [(i, t)]] ∧
        (segStep st (i, t)).buf = [])
    ∧ (¬((∃ f, t.fuel_liters = some f ∧ 0 < f) ∧ t.full_tank = true ∧
          0 < st.km + t.distance_km) →
      (segStep st (i, t)).closed = st.closed ∧
        (segStep st (i, t)).buf = st.buf ++ [(i, t)]) := by
  constructor
  · rintro ⟨⟨f, hf, hpos⟩, hft, hkm⟩
    rw [segStep_close st i t f hf hpos hft hkm]
    simp
  · exact segStep_noclose st i t

/-- Witness for `C1_segmenter_close` at a concrete closing trip. -/
theorem C1_segmenter_close_witness :
    (segStep initSeg (0, Trip.mk 10 (some 5) true)).closed.map Prod.fst
        = [[(0, Trip.mk 10 (some 5) true)]] ∧
      (segStep initSeg (0, Trip.mk 10 (some 5) true)).buf = [] := by
  have h := (C1_segmenter_close initSeg 0 (Trip.mk 10 (some 5) true)).1
    ⟨⟨5, rfl, by norm_num⟩, rfl, by norm_num [initSeg]⟩
  simpa [initSeg] using h

/-! ## Claim C2 -/

/-- Claim C2: the rate mapping is total — the assignment keys are exactly the
trip positions, in order; every closed period's rate is
`totalFuelAdded / totalDistance * 100` with `totalDistance` summing
`distance_km` over all the period's trips and `totalFuelAdded` summing the
positive `fuel_liters`; every trip of a closed period looks up that period's
rate and every trip of the open trailing buffer looks up `tp_consumption`;
and in the concrete two-trip scenario (distances 28 and 28, second trip
`fuelAdded = 19.6`, `isFullTank`), both trips receive rate 35. -/
theorem C2_rate_mapping (tp : ℚ) (trips : List Trip) :
    ((rateAssoc tp trips).map Prod.fst = List.range trips.length)
    ∧ (∀ p ∈ (runSeg trips).closed, p.2 = posFuelSum p.1 / distSum p.1 * 100)
    ∧ (∀ q ∈ (runSeg trips).buf, rateOf tp trips q.1 = some tp)
    ∧ (∀ p ∈ (runSeg trips).closed, ∀ q ∈ p.1, rateOf tp trips q.1 = some p.2)
    ∧ rateOf tp [Trip.mk 28 none true, Trip.mk 28 (some 19.6) true] 0 = some 35
    ∧ rateOf tp [Trip.mk 28 none true, Trip.mk 28 (some 19.6) true] 1
        = some 35 := by
  have hkeys : (rateAssoc tp trips).map Prod.fst = List.range trips.length := by
    rw [rateAssoc_keys, runSeg_keys]
  have hnd : ((rateAssoc tp trips).map Prod.fst).Nodup := by
    rw [hkeys]; exact List.nodup_range _
  have hinv := segRec_inv trips 0 initSeg (by simp [initSeg, distSum])
    (by simp [initSeg, posFuelSum]) (by simp [initSeg])
  refine ⟨hkeys, hinv, ?_, ?_, ?_, ?_⟩
  · intro q hq
    exact lookup_of_mem_nodup hnd
      (List.mem_append_right _ (List.mem_map.mpr ⟨q, hq, rfl⟩))
  · intro p hp q hq
    refine lookup_of_mem_nodup hnd (List.mem_append_left _ ?_)
    exact List.mem_flatMap.mpr ⟨p, hp, List.mem_map.mpr ⟨q, hq, rfl⟩⟩
  · norm_num [rateOf, rateAssoc, runSeg, segRec, segStep, initSeg, List.lookup]
  · norm_num [rateOf, rateAssoc, runSeg, segRec, segStep, initSeg, List.lookup]
    rfl

/-- Witness for `C2_rate_mapping`: a single open-period trip looks up the
reference rate. -/
theorem C2_rate_mapping_witness :
    rateOf 7 [Trip.mk 10 none false] 0 = some 7 :=
  (C2_rate_mapping 7 [Trip.mk 10 none false]).2.2.1 (0, Trip.mk 10 none false)
    (by norm_num [runSeg, segRec, segStep, initSeg])

/-! ## Claim C3 -/

/-- Claim C3: the simulator starts from a full tank and per trip records
`fuelConsumed = distanceTraveled * rate / 100`, subtracts it from the level,
then — when `fuelAdded` is present and positive — a full-tank refuel sets the
level exactly to capacity regardless of the amount, while a partial refuel
sets it to `min (level + fuelAdded) capacity`; the recorded remaining fuel is
the clamped level, which is threaded to the next trip; and in the concrete
scenario (capacity 50, reference rate 5.1, one open-period trip of distance
100, no fuel added) the derived values are rate 5.1, consumed 5.1,
remaining 44.9. -/
theorem C3_tank_simulator :
    (∀ (tank rate level : ℚ) (t : Trip),
      (simStep tank rate level t).spotreba = t.distance_km * rate / 100)
    ∧ (∀ (tank rate level : ℚ) (t : Trip) (f : ℚ),
        t.fuel_liters = some f → 0 < f → t.full_tank = true →
        (simStep tank rate level t).afterRefuel = tank)
    ∧ (∀ (tank rate level : ℚ) (t : Trip) (f : ℚ),
        t.fuel_liters = some f → 0 < f → t.full_tank = false →
        (simStep tank rate level t).afterRefuel
          = min (level - t.distance_km * rate / 100 + f) tank)
    ∧ (∀ (tank rate level : ℚ) (t : Trip),
        t.fuel_liters = none →
        (simStep tank rate level t).afterRefuel
          = level - t.distance_km * rate / 100)
    ∧ (∀ (tank rate level : ℚ) (t : Trip),
        (simStep tank rate level t).zostatok
          = max 0 (min (simStep tank rate level t).afterRefuel tank))
    ∧ (∀ (tank tp : ℚ) (r : ℕ → Option ℚ) (i : ℕ) (level : ℚ) (t : Trip)
          (rest : List Trip),
        simGo tank tp r i level (t :: rest)
          = simStep tank ((r i).getD tp) level t
              :: simGo tank tp r (i + 1)
                  (simStep tank ((r i).getD tp) level t).zostatok rest)
    ∧ (∀ (tp tank : ℚ) (trips : List Trip),
        get_calculated_values tp tank trips
          = simGo tank tp (rateOf tp trips) 0 tank trips)
    ∧ (get_calculated_values 5.1 50 [Trip.mk 100 none true]
        = [SimEntry.mk 5.1 44.9 44.9]
       ∧ rateOf 5.1 [Trip.mk 100 none true] 0 = some 5.1) := by
  refine ⟨fun tank rate level t => rfl, ?_, ?_, ?_,
    fun tank rate level t => rfl, fun tank tp r i level t rest => rfl,
    fun tp tank trips => rfl, ?_, ?_⟩
  · intro tank rate level t f hf hpos hft
    simp [simStep, hf, hpos, hft]
  · intro tank rate level t f hf hpos hft
    simp [simStep, hf, hpos, hft]
  · intro tank rate level t hf
    simp [simStep, hf]
  · norm_num [get_calculated_values, simGo, simStep, rateOf, rateAssoc,
      runSeg, segRec, segStep, initSeg, List.lookup]
  · norm_num [rateOf, rateAssoc, runSeg, segRec, segStep, initSeg, List.lookup]

/-- Witness for `C3_tank_simulator`: a positive full-tank refuel resets the
level exactly to capacity. -/
theorem C3_tank_simulator_witness :
    (simStep 50 6 20 (Trip.mk 100 (some 3) true)).afterRefuel = 50 :=
  C3_tank_simulator.2.1 50 6 20 (Trip.mk 100 (some 3) true) 3 rfl
    (by norm_num) rfl

/-! ## Claim C4 -/

/-- Claim C4: for every (non-negative) capacity and every input trip
sequence — however inconsistent — the simulation records one entry per trip
and every recorded remaining-fuel value lies within `[0, capacity]`; the
clamp of compare_import.py line 162 silently saturates and the simulator is
a total function. -/
theorem C4_clamp_invariant (tank tp : ℚ) (r : ℕ → Option ℚ) (i : ℕ)
    (level : ℚ) (trips : List Trip) (htank : 0 ≤ tank) :
    (simGo tank tp r i level trips).length = trips.length ∧
      ∀ e ∈ simGo tank tp r i level trips,
        0 ≤ e.zostatok ∧ e.zostatok ≤ tank := by
  induction trips generalizing i level with
  | nil => simp [simGo]
  | cons t rest ih =>
    rw [simGo]
    refine ⟨by simpa using (ih (i + 1) _).1, ?_⟩
    intro e he
    rcases List.mem_cons.mp he with rfl | hmem
    · constructor
      · exact le_max_left 0 _
      · exact max_le htank (min_le_right _ _)
    · exact (ih (i + 1) _).2 e hmem

/-- Witness for `C4_clamp_invariant`: an adversarial trip whose consumption
drives the level far below zero still records a remaining fuel inside
`[0, 50]` (the entry is `⟨102, -52, 0⟩`). -/
theorem C4_clamp_invariant_witness :
    0 ≤ (SimEntry.mk 102 (-52) 0).zostatok
      ∧ (SimEntry.mk 102 (-52) 0).zostatok ≤ 50 :=
  (C4_clamp_invariant 50 5.1 (fun _ => none) 0 50 [Trip.mk 2000 none true]
      (by norm_num)).2
    (SimEntry.mk 102 (-52) 0) (by norm_num [simGo, simStep])

/-! ## Claim C5 -/

/-- Claim C5 counterexample: the showcase-database builder walks its rows
oldest-first yet assigns **ascending** `sort_order` keys (0, 1, …): the
later, more recent trip receives the larger key, so the
newest-equals-smallest convention fails on this trip-creation path. -/
theorem C5_counterexample :
    showcaseSortOrders ["2024-01-03", "2024-01-08"] = [0, 1]
      ∧ ¬ List.Pairwise (fun a b : ℤ => b < a)
          (showcaseSortOrders ["2024-01-03", "2024-01-08"]) := by
  have hval : showcaseSortOrders ["2024-01-03", "2024-01-08"] = [0, 1] := by
    norm_num [showcaseSortOrders, showcaseGo]
  refine ⟨hval, fun h => ?_⟩
  rw [hval] at h
  have h1 : (1 : ℤ) < 0 := (List.pairwise_cons.mp h).1 1 (by simp)
  omega

lemma importLoop_props (v n idBase : ℕ) (rows : List DfRow) : ∀ k : ℕ,
    ((importLoop v n idBase k rows).length = (rows.filter usableRow).length)
    ∧ (∀ t ∈ importLoop v n idBase k rows,
        t.sort_order ≤ (n : ℤ) - 3 - k - 1)
    ∧ List.Pairwise (fun a b => b.sort_order < a.sort_order)
        (importLoop v n idBase k rows) := by
  induction rows with
  | nil => intro k; simp [importLoop]
  | cons r rest ih =>
    intro k
    cases hd : r.date with
    | none => simpa [importLoop, hd, usableRow] using ih k
    | some s =>
      by_cases ht : pyLower s = "total"
      · have hu : usableRow r = false := by simp [usableRow, hd, ht]
        simpa [importLoop, hd, ht, hu] using ih k
      · have hu : usableRow r = true := by simp [usableRow, hd, ht]
        have ihk := ih (k + 1)
        refine ⟨?_, ?_, ?_⟩
        · simp [importLoop, hd, ht, hu, ihk.1]
        · intro t htm
          rcases List.mem_cons.mp (by simpa [importLoop, hd, ht] using htm)
            with rfl | hmem
          · simp
          · have := ihk.2.1 t hmem
            push_cast at this ⊢
            omega
        · have hcons : importLoop v n idBase k (r :: rest)
              = ({ id := idBase + k, vehicle_id := v, date := parse_date s,
                   distance_km := r.dist10.getD 0, fuel_liters := r.fuel6,
                   sort_order := (n : ℤ) - 3 - k - 1, full_tank := true }
                  : StoredTrip) :: importLoop v n idBase (k + 1) rest := by
            simp [importLoop, hd, ht]
          rw [hcons]
          refine List.pairwise_cons.mpr ⟨?_, ihk.2.2⟩
          intro t hmem
          have := ihk.2.1 t hmem
          push_cast at this ⊢
          omega

lemma importLoop_sort_order_map (v n idBase : ℕ) (rows : List DfRow) :
    ∀ k : ℕ,
      (importLoop v n idBase k rows).map StoredTrip.sort_order
        = (List.range (rows.filter usableRow).length).map
            (fun (j : ℕ) => (n : ℤ) - 4 - (k : ℤ) - (j : ℤ)) := by
  induction rows with
  | nil => intro k; simp [importLoop]
  | cons r rest ih =>
    intro k
    cases hd : r.date with
    | none =>
      have hu : usableRow r = false := by simp [usableRow, hd]
      simpa [importLoop, hd, hu] using ih k
    | some s =>
      by_cases ht : pyLower s = "total"
      · have hu : usableRow r = false := by simp [usableRow, hd, ht]
        simpa [importLoop, hd, ht, hu] using ih k
      · have hu : usableRow r = true := by simp [usableRow, hd, ht]
        have hcons : importLoop v n idBase k (r :: rest)
            = ({ id := idBase + k, vehicle_id := v, date := parse_date s,
                 distance_km := r.dist10.getD 0, fuel_liters := r.fuel6,
                 sort_order := (n : ℤ) - 3 - k - 1, full_tank := true }
                : StoredTrip) :: importLoop v n idBase (k + 1) rest := by
          simp [importLoop, hd, ht]
        rw [hcons, List.map_cons, ih (k + 1),
          List.filter_cons_of_pos (by simpa using hu), List.length_cons,
          List.range_succ_eq_map, List.map_cons, List.map_map]
        refine congrArg₂ List.cons (by push_cast; ring) ?_
        refine List.map_congr_left fun j hj => ?_
        simp only [Function.comp_apply]
        push_cast
        ring

lemma importLoop_skip_erasure (v n idBase : ℕ) (rows : List DfRow) :
    ∀ k : ℕ,
      importLoop v n idBase k rows
        = importLoop v n idBase k (rows.filter usableRow) := by
  induction rows with
  | nil => intro k; simp
  | cons r rest ih =>
    intro k
    cases hd : r.date with
    | none =>
      have hu : usableRow r = false := by simp [usableRow, hd]
      rw [List.filter_cons_of_neg (by simp [hu])]
      simpa [importLoop, hd] using ih k
    | some s =>
      by_cases ht : pyLower s = "total"
      · have hu : usableRow r = false := by simp [usableRow, hd, ht]
        rw [List.filter_cons_of_neg (by simp [hu])]
        simpa [importLoop, hd, ht] using ih k
      · have hu : usableRow r = true := by simp [usableRow, hd, ht]
        rw [List.filter_cons_of_pos (by simpa using hu)]
        simp only [importLoop, hd, ht, if_neg ht]
        exact congrArg (List.cons _) (ih (k + 1))

/-- Claim C5 (amended): the replace-import pipeline, walking source rows
oldest-first, assigns strictly descending `sort_order` keys to the trips it
inserts — the last-inserted, most recent trip gets the smallest key — and a
skipped blank or `"total"` row consumes no `sort_order` slot: the keys are
exactly the gap-free consecutive run `n-4, n-5, …` indexed by the count of
inserted trips alone, and the inserted trips are identical to those of a run
on the skip-filtered rows, so interleaved skips shift nothing; the showcase
builder (see `C5_counterexample`) does not follow this convention. -/
theorem C5_import_sort_order (v n idBase : ℕ) (rows : List DfRow) :
    List.Pairwise (fun a b => b < a)
        ((importLoop v n idBase 0 rows).map StoredTrip.sort_order)
      ∧ (importLoop v n idBase 0 rows).length
          = (rows.filter usableRow).length
      ∧ (importLoop v n idBase 0 rows).map StoredTrip.sort_order
          = (List.range (rows.filter usableRow).length).map
              (fun (j : ℕ) => (n : ℤ) - 4 - (j : ℤ))
      ∧ importLoop v n idBase 0 rows
          = importLoop v n idBase 0 (rows.filter usableRow) := by
  refine ⟨?_, ?_, ?_, ?_⟩
  · rw [List.pairwise_map]
    exact (importLoop_props v n idBase rows 0).2.2
  · exact (importLoop_props v n idBase rows 0).1
  · rw [importLoop_sort_order_map v n idBase rows 0]
    exact List.map_congr_left fun j hj => by push_cast; ring
  · exact importLoop_skip_erasure v n idBase rows 0

/-! ## Claim C6 -/

/-- Claim C6: on sequences of differing lengths the comparator reports a
count mismatch for the year with both mismatch lists (still) empty — the
per-row comparison never runs (compare_import.py lines 182-184). -/
theorem C6_count_mismatch (year : String) (excel : List ExcelRow)
    (db : List DbRow) (c : CalcData) (h : excel.length ≠ db.length) :
    (compare_year year excel db c).count_mismatch = true
    ∧ (compare_year year excel db c).fixed_mismatches = []
    ∧ (compare_year year excel db c).calc_mismatches = []
    ∧ (compare_year year excel db c).excel_count = excel.length
    ∧ (compare_year year excel db c).db_count = db.length := by
  simp [compare_year, h]

/-- Witness for `C6_count_mismatch`: reference length 70 versus computed
length 69. -/
theorem C6_count_mismatch_witness :
    (compare_year "2024" (List.replicate 70 sampleExcelRow)
        (List.replicate 69 sampleDbRow) emptyCalc).count_mismatch = true
    ∧ (compare_year "2024" (List.replicate 70 sampleExcelRow)
        (List.replicate 69 sampleDbRow) emptyCalc).fixed_mismatches = []
    ∧ (compare_year "2024" (List.replicate 70 sampleExcelRow)
        (List.replicate 69 sampleDbRow) emptyCalc).calc_mismatches = []
    ∧ (compare_year "2024" (List.replicate 70 sampleExcelRow)
        (List.replicate 69 sampleDbRow) emptyCalc).excel_count = 70
    ∧ (compare_year "2024" (List.replicate 70 sampleExcelRow)
        (List.replicate 69 sampleDbRow) emptyCalc).db_count = 69 := by
  have h := C6_count_mismatch "2024" (List.replicate 70 sampleExcelRow)
    (List.replicate 69 sampleDbRow) emptyCalc (by simp)
  simpa using h

/-! ## Claim C7 -/

lemma fixedMismatch?_eq_spec (rownum : ℕ) (field : String) (ev dv : Val) :
    fixedMismatch? rownum field ev dv
      = if specFixedEqB ev dv then none
        else some ⟨rownum, field, ev, dv⟩ := by
  cases ev <;> cases dv <;> simp [fixedMismatch?, specFixedEqB]
  all_goals split_ifs <;> first | rfl | omega | linarith [abs_nonneg ((0 : ℚ))]

lemma rowFixed_eq_spec (rownum : ℕ) (e : ExcelRow) (d : DbRow) :
    rowFixed rownum e d = specRowFixed rownum e d :=
  List.filterMap_congr fun q _ => fixedMismatch?_eq_spec rownum q.1 q.2.1 q.2.2

lemma compareRows_fst (c : CalcData) :
    ∀ (rownum : ℕ) (es : List ExcelRow) (ds : List DbRow),
      (compareRows c rownum es ds).1 = specFixedMismatches rownum es ds := by
  intro rownum es
  induction es generalizing rownum with
  | nil => intro ds; cases ds <;> simp [compareRows, specFixedMismatches]
  | cons e es ih =>
    intro ds
    cases ds with
    | nil => simp [compareRows, specFixedMismatches]
    | cons d ds =>
      simp [compareRows, specFixedMismatches, rowFixed_eq_spec, ih]

/-- Claim C7: for equal-length sequences the comparator's fixed-field
mismatches are exactly those described by the spec rule — per position
(1-based row numbers), each of the eight fixed fields equal iff both absent,
or within 0.01 for a numeric pair, or exactly equal otherwise, every
inequality recorded with the row, the field name and both values; and
concretely 55.0 versus 55.004 is no mismatch while 55.0 versus 55.02 is
recorded. -/
theorem C7_fixed_fields (year : String) (excel : List ExcelRow)
    (db : List DbRow) (c : CalcData) (h : excel.length = db.length) :
    (compare_year year excel db c).fixed_mismatches
        = specFixedMismatches 1 excel db
    ∧ fixedMismatch? 1 "distance_km" (Val.num 55) (Val.num 55.004) = none
    ∧ fixedMismatch? 1 "distance_km" (Val.num 55) (Val.num 55.02)
        = some ⟨1, "distance_km", Val.num 55, Val.num 55.02⟩ := by
  refine ⟨?_, ?_, ?_⟩
  · simp [compare_year, h, compareRows_fst]
  · norm_num [fixedMismatch?, lt_abs]
  · norm_num [fixedMismatch?, lt_abs]

/-- Witness for `C7_fixed_fields` on concrete one-row sequences. -/
theorem C7_fixed_fields_witness :
    (compare_year "2024" [sampleExcelRow] [sampleDbRow]
        emptyCalc).fixed_mismatches
      = specFixedMismatches 1 [sampleExcelRow] [sampleDbRow] :=
  (C7_fixed_fields "2024" [sampleExcelRow] [sampleDbRow] emptyCalc rfl).1

/-! ## Claim C8 -/

lemma calcCheck_eq_spec (rownum : ℕ) (field : String) (tol : ℚ)
    (ev cv : Option ℚ) :
    calcCheck rownum field tol ev cv = specCalcCheck rownum field tol ev cv := by
  cases ev <;> cases cv <;> rfl

lemma compareRows_snd (c : CalcData) :
    ∀ (rownum : ℕ) (es : List ExcelRow) (ds : List DbRow),
      (compareRows c rownum es ds).2 = specCalcMismatches c rownum es ds := by
  intro rownum es
  induction es generalizing rownum with
  | nil => intro ds; cases ds <;> simp [compareRows, specCalcMismatches]
  | cons e es ih =>
    intro ds
    cases ds with
    | nil => simp [compareRows, specCalcMismatches]
    | cons d ds =>
      simp [compareRows, specCalcMismatches, rowCalc, calcCheck_eq_spec, ih]

/-- Claim C8: for equal-length sequences the derived-field mismatches are
exactly the spec's — per position, `consumption_rate` with tolerance 0.05,
`spotreba` with 0.1, `zostatok` with 0.5, each comparison silently skipped
when either side is absent, a mismatch recorded (with row, both values and
the absolute difference) exactly when the absolute difference exceeds the
tolerance, and the whole sequence enumerated without short-circuiting or
error. -/
theorem C8_derived_fields (year : String) (excel : List ExcelRow)
    (db : List DbRow) (c : CalcData) (h : excel.length = db.length) :
    ((compare_year year excel db c).calc_mismatches
        = specCalcMismatches c 1 excel db)
    ∧ (∀ (rownum : ℕ) (field : String) (tol : ℚ) (ev : Option ℚ),
        calcCheck rownum field tol ev none = []
        ∧ calcCheck rownum field tol none ev = [])
    ∧ (∀ (rownum : ℕ) (field : String) (tol a b : ℚ), tol < |a - b| →
        calcCheck rownum field tol (some a) (some b)
          = [⟨rownum, field, a, b, |a - b|⟩])
    ∧ (∀ (rownum : ℕ) (field : String) (tol a b : ℚ), |a - b| ≤ tol →
        calcCheck rownum field tol (some a) (some b) = []) := by
  refine ⟨?_, ?_, ?_, ?_⟩
  · simp [compare_year, h, compareRows_snd]
  · intro rownum field tol ev
    exact ⟨by cases ev <;> rfl, rfl⟩
  · intro rownum field tol a b hlt
    simp [calcCheck, hlt]
  · intro rownum field tol a b hle
    simp [calcCheck, not_lt.mpr hle]

/-- Witness for `C8_derived_fields`: a derived pair differing by 1 against
tolerance 0.1 is recorded with its absolute difference. -/
theorem C8_derived_fields_witness :
    calcCheck 1 "spotreba" (1/10) (some 3) (some 4)
      = [CalcMismatch.mk 1 "spotreba" 3 4 |(3 : ℚ) - 4|] :=
  (C8_derived_fields "2024" [] [] emptyCalc rfl).2.2.1 1 "spotreba" (1/10) 3 4
    (by norm_num)

/-! ## Claim C9 -/

/-- Claim C9: the replace-import pipeline is year-scoped and aborts safely —
with no vehicle, or no row yielding a usable date, it returns the store
untouched (the delete never runs first); on success the target year `Y`
comes from the first usable row and every persisted trip dated outside `Y`
is still present, unaltered, in the resulting store. -/
theorem C9_year_scoped (vehicles : List ℕ) (idBase : ℕ) (df : List DfRow)
    (store : List StoredTrip) :
    (vehicles = [] →
      importReplace vehicles idBase df store
        = (some "No vehicle found in database", store))
    ∧ (∀ v vs, vehicles = v :: vs →
        firstUsableYear (df.drop 3) = none →
        importReplace vehicles idBase df store
          = (some "No valid dates found in Excel data", store))
    ∧ (∀ v vs Y, vehicles = v :: vs →
        firstUsableYear (df.drop 3) = some Y →
        (importReplace vehicles idBase df store).1 = none
        ∧ ∀ t ∈ store, t.date.take 4 ≠ Y →
            t ∈ (importReplace vehicles idBase df store).2) := by
  refine ⟨?_, ?_, ?_⟩
  · rintro rfl; rfl
  · rintro v vs rfl hn
    simp [importReplace, hn]
  · rintro v vs Y rfl hy
    constructor
    · simp [importReplace, hy]
    · intro t ht hne
      have hmem : t ∈ store.filter
          (fun t => ¬(t.vehicle_id = v ∧ t.date.take 4 = Y)) := by
        refine List.mem_filter.mpr ⟨ht, ?_⟩
        simp [hne]
      simp only [importReplace, hy]
      exact List.mem_append_left _ hmem

/-- Witness for `C9_year_scoped`: the no-vehicle abort leaves the store
unchanged. -/
theorem C9_year_scoped_witness :
    importReplace [] 0 []
        [StoredTrip.mk 0 1 "2023-05-01" 10 none 0 true]
      = (some "No vehicle found in database",
          [StoredTrip.mk 0 1 "2023-05-01" 10 none 0 true]) :=
  (C9_year_scoped [] 0 [] [StoredTrip.mk 0 1 "2023-05-01" 10 none 0 true]).1
    rfl

/-! ## Claim C10 -/

/-- Claim C10 counterexample: the import loop does set `full_tank = true` on
the trip it inserts, and the trip carries `fuelAdded = 5 > 0` — yet, because
its distance cell was blank (`distance_km` defaults to 0), segmenting the
imported data closes **no** period: a positive-`fuelAdded` trip produced by
the pipeline does not always close a fuel period. -/
theorem C10_counterexample :
    (importLoop 1 4 0 0 [DfRow.mk (some "1.2.2024") (some 5) none]).map toTrip
        = [Trip.mk 0 (some 5) true]
    ∧ (runSeg ((importLoop 1 4 0 0
          [DfRow.mk (some "1.2.2024") (some 5) none]).map toTrip)).closed
        = [] := by
  have hskip : ¬(pyLower "1.2.2024" = "total") := by decide
  have hloop : (importLoop 1 4 0 0
      [DfRow.mk (some "1.2.2024") (some 5) none]).map toTrip
      = [Trip.mk 0 (some 5) true] := by
    norm_num [importLoop, toTrip, hskip]
  refine ⟨hloop, ?_⟩
  rw [hloop]
  norm_num [runSeg, segRec, segStep, initSeg]

/-- Claim C10 (amended): every trip inserted by the replace-import pipeline
has `isFullTank = true`; consequently, in pipeline-produced data, a trip
with positive `fuelAdded` closes a fuel period whenever the accumulated
distance of its period (the closing trip included) is positive. -/
theorem C10_full_tank (v n idBase k : ℕ) (rows : List DfRow) :
    (∀ t ∈ importLoop v n idBase k rows, t.full_tank = true)
    ∧ (∀ (st : SegState) (i : ℕ) (t : Trip) (f : ℚ),
        t.fuel_liters = some f → 0 < f → t.full_tank = true →
        0 < st.km + t.distance_km →
        (segStep st (i, t)).closed
          = st.closed ++ [(st.buf ++ [(i, t)],
              (st.fuel + f) / (st.km + t.distance_km) * 100)]) := by
  constructor
  · induction rows generalizing k with
    | nil => simp [importLoop]
    | cons r rest ih =>
      intro t htm
      cases hd : r.date with
      | none =>
        exact ih (k := k) t (by simpa [importLoop, hd] using htm)
      | some s =>
        by_cases ht : pyLower s = "total"
        · exact ih (k := k) t (by simpa [importLoop, hd, ht] using htm)
        · rcases List.mem_cons.mp (by simpa [importLoop, hd, ht] using htm)
            with rfl | hmem
          · rfl
          · exact ih (k := k + 1) t hmem
  · intro st i t f hf hpos hft hkm
    rw [segStep_close st i t f hf hpos hft hkm]

/-- Witness for `C10_full_tank`: a concrete full-tank, positive-fuel trip
with positive period distance closes the period. -/
theorem C10_full_tank_witness :
    (segStep initSeg (0, Trip.mk 5 (some 2) true)).closed
      = [([(0, Trip.mk 5 (some 2) true)],
          ((0 : ℚ) + 2) / ((0 : ℚ) + 5) * 100)] := by
  have h := (C10_full_tank 1 4 0 0 []).2 initSeg 0 (Trip.mk 5 (some 2) true) 2
    rfl (by norm_num) rfl (by norm_num [initSeg])
  simpa [initSeg] using h

end KnihaJazd
